import Mathlib

/-!
Verification development for the early-signal public-health chatbot.

The definitions below are a shallow embedding of the Python sources
`graph_orchestrator.py`, `agents/cluster_validation_agent.py` and
`agents/diagnostic_agent.py`.  Conventions of the embedding:

* Python `float` confidences and ratios are modelled as `ℚ` (every literal in
  the source is an exact decimal).
* Python `int` is `ℤ`; a value that may be `None` is an `Option`.
* A Python dict field that may be absent is an `Option`; when the distinction
  between an absent key and a key stored with value `None` matters (the source
  tests both `"k" in d` and the truthiness of `d["k"]`), the field is an
  `Option (Option _)`: the outer layer is key presence, the inner one is the
  null-or-value stored under the key.
* Python truthiness of a string is non-emptiness, of a list non-emptiness, of
  a dict non-emptiness; dict-valued state fields that the orchestrator only
  ever stores as either a non-empty dict or `{}`/`None` are modelled as
  `Option` with `none` for the falsy cases.
* The external collaborators (the LLM extraction service and the BigQuery
  query store) are modelled as explicit inputs: an `LLMReply` describes how
  `json.loads` fares on the reply text, and the query-store outcome is an
  `Option ClusterData` (`none` both when the call raises - the source catches
  every exception and returns `{}` - and when no cluster matches).
* User-facing free-text messages that the source builds with f-string
  interpolation are abstracted to their fixed leading marker text; no claim
  depends on the interpolated parts.  Empty-versus-non-empty is preserved.
-/

/-- Python `str.lower` restricted to the ASCII range used by the program,
over the underlying character list. -/
def py_lower (s : String) : String := String.mk (s.data.map Char.toLower)

/-- Python `str.strip` (leading and trailing whitespace removed), over the
underlying character list. -/
def py_strip (s : String) : String :=
  String.mk (((s.data.dropWhile Char.isWhitespace).reverse.dropWhile
    Char.isWhitespace).reverse)

/-- Scan for `pat` at every suffix of a character list. -/
def py_in_chars (pat : List Char) : List Char → Bool
  | [] => pat.isEmpty
  | c :: rest => pat.isPrefixOf (c :: rest) || py_in_chars pat rest

/-- Python substring membership `pat in s`, as a scan over the underlying
character lists. -/
def py_in (pat s : String) : Bool := py_in_chars pat.data s.data

/-- Python truthiness of an optional string (`None` and `""` are falsy). -/
def truthyStr (o : Option String) : Bool :=
  match o with
  | none => false
  | some s => s != ""

/-- Python `"k" in d and d["k"]` for a key whose stored value may be null:
the key must be present and hold a non-empty string. -/
def keyTruthy (o : Option (Option String)) : Bool :=
  match o with
  | some (some s) => s != ""
  | _ => false

/-- Python `d.get(k)` on a key whose stored value may itself be null:
collapses an absent key and a null value to `none`. -/
def dictGetOpt (o : Option (Option String)) : Option String := o.join

/-- One `{question, answer}` entry of `clarifier_context`. -/
structure QA where
  question : String
  answer : String
deriving Repr, DecidableEq

/-! ## Cluster matcher and confidence engine
(`agents/cluster_validation_agent.py`) -/

/-- The slice of a cluster row that `validate_diagnosis` reads.  The query in
`query_matching_cluster` always stores `predominant_category` (defaulting it
to `"other"`), but `validate_diagnosis` re-reads it with
`.get("predominant_category", "other")`, so the field stays optional here. -/
structure ClusterData where
  cluster_size : ℤ
  predominant_disease : String
  consensus_ratio : ℚ
  predominant_category : Option String
deriving Repr, DecidableEq

/-- Source: `calculate_confidence_boost` (cluster_validation_agent.py,
lines 426-458). -/
def calculate_confidence_boost (cluster_size : ℤ) (consensus_ratio : ℚ) : ℚ :=
  let size_boost : ℚ :=
    if cluster_size ≥ 20 then 0.20
    else if cluster_size ≥ 10 then 0.15
    else if cluster_size ≥ 5 then 0.12
    else 0.10
  let consensus_boost : ℚ :=
    if consensus_ratio ≥ 0.90 then 0.10
    else if consensus_ratio ≥ 0.80 then 0.07
    else if consensus_ratio ≥ 0.70 then 0.05
    else 0.03
  let total_boost := size_boost + consensus_boost
  min total_boost 0.30

/-- Source: `calculate_alternative_confidence` (cluster_validation_agent.py,
lines 461-513).  `user_illness_category` may be Python `None` (the orchestrator
passes `diagnosis.get("illness_category")`); `None == cluster_category` is
`False` in Python, which the `Option`-against-`some` comparison mirrors. -/
def calculate_alternative_confidence (cluster_size : ℤ) (consensus_ratio : ℚ)
    (user_illness_category : Option String) (cluster_category : String) : ℚ :=
  let base : ℚ := if user_illness_category = some cluster_category then 0.55 else 0.40
  let size_boost : ℚ :=
    if cluster_size ≥ 15 then 0.20
    else if cluster_size ≥ 10 then 0.15
    else if cluster_size ≥ 5 then 0.10
    else 0.05
  let consensus_boost : ℚ :=
    if consensus_ratio ≥ 0.85 then 0.15
    else if consensus_ratio ≥ 0.80 then 0.10
    else 0.05
  let confidence := base + size_boost + consensus_boost
  min confidence 0.85

/-- Source: the acceptance threshold assigned inside `validate_diagnosis`
(cluster_validation_agent.py, line 379):
`confidence_threshold = 0.50 if category_match else 0.45`. -/
def confidence_threshold (category_match : Bool) : ℚ :=
  if category_match then 0.50 else 0.45

/-- The dict returned by `validate_diagnosis`: keys present in every branch
are plain fields, branch-specific keys are `Option`s. -/
structure ValidationOutcome where
  validation_result : String
  refined_diagnosis : String
  refined_confidence : ℚ
  confidence_boost : Option ℚ
  original_diagnosis : Option String
  cluster_predominant_disease : Option String
  category_match : Option Bool
  reasoning : String
deriving Repr, DecidableEq

/-- Source: `validate_diagnosis` (cluster_validation_agent.py, lines 308-423).
`cluster_data = none` models the empty dict that `query_matching_cluster`
returns both on "no match" and on a raised/caught query-store error.  The
f-string reasoning texts are abstracted to their fixed leading sentences. -/
def validate_diagnosis (user_disease : String) (user_confidence : ℚ)
    (user_illness_category : Option String) (cluster_data : Option ClusterData) :
    ValidationOutcome :=
  match cluster_data with
  | none =>
    { validation_result := "NO_MATCH"
      refined_diagnosis := user_disease
      refined_confidence := user_confidence
      confidence_boost := none
      original_diagnosis := none
      cluster_predominant_disease := none
      category_match := none
      reasoning := "No active outbreak clusters match your exposure location and timing." }
  | some c =>
    let predominant := c.predominant_disease
    let consensus := c.consensus_ratio
    let cluster_size := c.cluster_size
    let cluster_category := c.predominant_category.getD "other"
    if user_disease = predominant then
      let boost := calculate_confidence_boost cluster_size consensus
      let refined_confidence := min (user_confidence + boost) 0.99
      { validation_result := "CONFIRMED"
        refined_diagnosis := user_disease
        refined_confidence := refined_confidence
        confidence_boost := some boost
        original_diagnosis := some user_disease
        cluster_predominant_disease := some predominant
        category_match := none
        reasoning := "Your diagnosis matches the predominant disease in an active outbreak cluster at your exposure location." }
    else
      -- The source returns `ALTERNATIVE` from an `if` nested inside
      -- `elif consensus >= 0.60:` and otherwise falls through to the
      -- `WEAK_MATCH`/`LOW_CONSENSUS` continuation; that early return is
      -- rendered here as the conjunction of the two guards.
      let alt_confidence := calculate_alternative_confidence cluster_size consensus
        user_illness_category cluster_category
      let category_match := user_illness_category = some cluster_category
      if consensus ≥ 0.60 ∧ alt_confidence ≥ confidence_threshold category_match then
        { validation_result := "ALTERNATIVE"
          refined_diagnosis := predominant
          refined_confidence := alt_confidence
          confidence_boost := none
          original_diagnosis := some user_disease
          cluster_predominant_disease := some predominant
          category_match := some category_match
          reasoning := "Strong cluster evidence suggests considering an alternative diagnosis." }
      else
        if consensus < 0.60 then
          { validation_result := "WEAK_MATCH"
            refined_diagnosis := user_disease
            refined_confidence := user_confidence
            confidence_boost := none
            original_diagnosis := none
            cluster_predominant_disease := some predominant
            category_match := none
            reasoning := "A cluster exists at your exposure location, but diagnoses vary." }
        else
          { validation_result := "LOW_CONSENSUS"
            refined_diagnosis := user_disease
            refined_confidence := user_confidence
            confidence_boost := none
            original_diagnosis := none
            cluster_predominant_disease := some predominant
            category_match := none
            reasoning := "Multiple illnesses reported at your exposure location." }

/-- Source: `format_cluster_alert` (cluster_validation_agent.py, lines 515-579),
abstracted to the fixed headline of each message; the source text is non-empty
in every branch except `NO_MATCH`, which returns the empty string. -/
def format_cluster_alert (validation_result : ValidationOutcome) : String :=
  let result_type := validation_result.validation_result
  if result_type = "NO_MATCH" then ""
  else if result_type = "CONFIRMED" then "OUTBREAK CONFIRMATION"
  else if result_type = "ALTERNATIVE" then "ALTERNATIVE DIAGNOSIS SUGGESTED"
  else if result_type = "WEAK_MATCH" then "CLUSTER INFORMATION"
  else "CLUSTER DETECTED"

/-- The JSON input parsed by the cluster-validation agent `run_agent`. -/
structure ClusterPayload where
  user_disease : Option String
  user_confidence : ℚ
  exposure_latitude : Option ℚ
  exposure_longitude : Option ℚ
  days_since_exposure : Option ℤ
  illness_category : Option String
deriving Repr, DecidableEq

/-- The JSON dict built at the end of the cluster-validation `run_agent`
(and its early-exit error dict, whose absent keys are `none`). -/
structure AgentResult where
  error : Option String
  cluster_found : Bool
  cluster_data : Option ClusterData
  validation_result : String
  refined_diagnosis : Option String
  refined_confidence : Option ℚ
  original_diagnosis : Option String
  original_confidence : Option ℚ
  confidence_boost : Option ℚ
  reasoning : Option String
  console_output : Option String
deriving Repr, DecidableEq

/-- Source: the cluster-validation `run_agent` (cluster_validation_agent.py,
lines 581-683) after JSON parsing, as a function of the parsed payload and of
the query-store outcome (`query_outcome = none` models both a raised and
caught BigQuery error and an empty query result, which is exactly what
`query_matching_cluster` collapses to `{}`). -/
def run_cluster_validation_core (data : ClusterPayload)
    (query_outcome : Option ClusterData) : AgentResult :=
  if ¬ (truthyStr data.user_disease ∧ data.exposure_latitude ≠ none ∧
        data.exposure_longitude ≠ none ∧ data.days_since_exposure ≠ none) then
    { error := some "Missing required fields: user_disease, exposure_latitude, exposure_longitude, days_since_exposure"
      cluster_found := false
      cluster_data := none
      validation_result := "ERROR"
      refined_diagnosis := none
      refined_confidence := none
      original_diagnosis := none
      original_confidence := none
      confidence_boost := none
      reasoning := none
      console_output := none }
  else
    let user_disease := data.user_disease.getD ""
    let cluster_data := query_outcome
    let cluster_found := cluster_data.isSome
    let validation_result := validate_diagnosis user_disease data.user_confidence
      data.illness_category cluster_data
    let console_output :=
      if cluster_found then format_cluster_alert validation_result else ""
    { error := none
      cluster_found := cluster_found
      cluster_data := cluster_data
      validation_result := validation_result.validation_result
      refined_diagnosis := some validation_result.refined_diagnosis
      refined_confidence := some validation_result.refined_confidence
      original_diagnosis := some (validation_result.original_diagnosis.getD user_disease)
      original_confidence := some data.user_confidence
      confidence_boost := some (validation_result.confidence_boost.getD 0.0)
      reasoning := some validation_result.reasoning
      console_output := some console_output }

/-! ## Diagnostic agent (`agents/diagnostic_agent.py`) -/

/-- A diagnosis-shaped Python dict: the shape that flows between the
diagnostic agent, the `diagnosis` field of the conversation state, and the
refined diagnosis written by `cluster_validation_node`.  Every field is a key
that may be absent; `final_diagnosis`, `illness_category` and
`original_diagnosis` may also be stored with a null value, which the
orchestrator distinguishes from key absence. -/
structure DiagDict where
  final_diagnosis : Option (Option String)
  illness_category : Option (Option String)
  confidence : Option ℚ
  reasoning : Option String
  awaiting_field : Option String
  console_output : Option String
  cluster_validated : Option Bool
  original_diagnosis : Option (Option String)
  original_diagnosis_confidence : Option ℚ
  validation_type : Option String
deriving Repr, DecidableEq

/-- The empty diagnosis dict `{}`. -/
def emptyDiag : DiagDict :=
  { final_diagnosis := none, illness_category := none, confidence := none
    reasoning := none, awaiting_field := none, console_output := none
    cluster_validated := none, original_diagnosis := none
    original_diagnosis_confidence := none, validation_type := none }

/-- The result of `extract_diagnosis_from_mixed_response`
(diagnostic_agent.py, lines 215-238).  The function has two paths.  First it
regex-matches a flat embedded `{...}` substring whose text mentions
`final_diagnosis` and, when `json.loads` parses it, returns that dict AS-IS:
an arbitrary object whose fields are unconstrained - it may hold a null
`final_diagnosis` or lack the `illness_category` key entirely
(`embeddedJson`).  Otherwise it regex-captures the two fields manually; the
`[^"]+` captures are strings and both keys are always present, while the
captured confidence number may be absent (`manualFields`).  If neither path
fires it returns `None` (`nothingFound`).  A returned dict is never empty
(its text contains at least one key), hence truthy in the caller's
`if extracted:` test. -/
inductive ExtractionOutcome where
  | embeddedJson (obj : DiagDict)
  | manualFields (final_diagnosis illness_category : String) (confidence : Option ℚ)
  | nothingFound
deriving Repr, DecidableEq

/-- How `json.loads` fares on the LLM reply text inside the diagnostic
`run_agent`: either the text parses as a JSON object (whose
diagnosis-relevant keys are in a `DiagDict`), or it does not parse and
`extract_diagnosis_from_mixed_response` yields an `ExtractionOutcome`. -/
inductive LLMReply where
  | jsonObj (raw : String) (obj : DiagDict)
  | freeText (raw : String) (extraction : ExtractionOutcome)
deriving Repr, DecidableEq

/-- The reply text the constructors carry. -/
def LLMReply.raw : LLMReply → String
  | .jsonObj raw _ => raw
  | .freeText raw _ => raw

/-- Whether the reply is a parsed JSON object carrying both the
`final_diagnosis` and the `illness_category` keys - the only replies the
diagnostic `run_agent` passes through unchanged. -/
def is_compliant_diag_json (reply : LLMReply) : Bool :=
  match reply with
  | .jsonObj _ obj => obj.final_diagnosis.isSome && obj.illness_category.isSome
  | .freeText _ _ => false

/-- Source: the deterministic fallback inside the diagnostic `run_agent`
under `force_final` (diagnostic_agent.py, lines 303-341): keyword scan of the
lower-cased symptom text and of the clarifier answers. -/
def fallback_force (symptoms : List String) (clarifier_context : List QA) : DiagDict :=
  let symptoms_lower := symptoms.map py_lower
  let joined := String.intercalate " " symptoms_lower
  let has_gi := ["nausea", "vomit", "diarrhea", "stomach", "cramp"].any
    (fun x => py_in x joined)
  let has_respiratory := ["cough", "sneeze", "throat", "congestion"].any
    (fun x => py_in x joined)
  let _has_fever_mentioned := symptoms_lower.any (fun s => py_in "fever" s)
  let answers_lower := String.intercalate " "
    (clarifier_context.map (fun qa => py_lower qa.answer))
  let has_nausea_confirmed := py_in "nausea" answers_lower || py_in "yes" answers_lower
  let has_vomit_confirmed := py_in "vomit" answers_lower
  let has_diarrhea_confirmed := py_in "diarrhea" answers_lower || py_in "yes" answers_lower
  let no_fever_confirmed := py_in "no" answers_lower &&
    clarifier_context.any (fun qa => py_in "fever" (py_lower qa.question))
  if has_gi || has_nausea_confirmed || has_vomit_confirmed || has_diarrhea_confirmed then
    { emptyDiag with
      final_diagnosis := some (some (if no_fever_confirmed then "Gastroenteritis" else "Food poisoning"))
      illness_category := some (some "foodborne")
      confidence := some 0.65
      reasoning := some "Patient presents with gastrointestinal symptoms consistent with foodborne illness." }
  else if has_respiratory then
    { emptyDiag with
      final_diagnosis := some (some "Upper Respiratory Infection")
      illness_category := some (some "airborne")
      confidence := some 0.6
      reasoning := some "Patient presents with respiratory symptoms." }
  else
    { emptyDiag with
      final_diagnosis := some (some "Viral Infection")
      illness_category := some (some "other")
      confidence := some 0.4
      reasoning := some "Based on available symptom information. Recommend professional medical evaluation." }

/-- Source: the fallback reached without `force_final` once
`len(clarifier_context) >= 3` (diagnostic_agent.py, lines 343-365). -/
def fallback_max_clarifications (symptoms : List String) : DiagDict :=
  let symptoms_lower := symptoms.map py_lower
  let joined := String.intercalate " " symptoms_lower
  let has_gi := ["nausea", "vomit", "diarrhea", "stomach", "cramp"].any
    (fun x => py_in x joined)
  if has_gi then
    { emptyDiag with
      final_diagnosis := some (some "Gastroenteritis")
      illness_category := some (some "foodborne")
      confidence := some 0.6
      reasoning := some "Based on gastrointestinal symptoms presented." }
  else
    { emptyDiag with
      final_diagnosis := some (some "Viral Infection")
      illness_category := some (some "other")
      confidence := some 0.5
      reasoning := some "Based on available information. Medical consultation recommended." }

/-- Source: the diagnostic `run_agent` (diagnostic_agent.py, lines 240-375)
after the input JSON has been unpacked, as a function of the unpacked payload
and of the LLM reply.  The clarifier-question JSON also echoes the symptoms
and context back; those echoed keys are not read by any caller and are not
modelled. -/
def run_diagnostic_core (symptoms : List String) (days_since_onset : Option ℤ)
    (clarifier_context : List QA) (force_final : Bool) (reply : LLMReply) : DiagDict :=
  if symptoms.isEmpty || days_since_onset = none then
    { emptyDiag with
      awaiting_field := some "symptoms"
      console_output := some "I need symptom information to proceed." }
  else
    match reply with
    | .jsonObj _ obj =>
      if obj.final_diagnosis.isSome && obj.illness_category.isSome then
        { obj with
          confidence := some (obj.confidence.getD 0.5)
          reasoning := some (obj.reasoning.getD "Diagnosis based on presented symptoms.") }
      else if force_final then
        fallback_force symptoms clarifier_context
      else if clarifier_context.length ≥ 3 then
        fallback_max_clarifications symptoms
      else
        { emptyDiag with
          awaiting_field := some "clarifier_answer"
          console_output := some reply.raw }
    | .freeText raw extraction =>
      if force_final then
        match extraction with
        | .embeddedJson obj => obj
        | .manualFields final_diagnosis illness_category confidence =>
          { emptyDiag with
            final_diagnosis := some (some final_diagnosis)
            illness_category := some (some illness_category)
            confidence := some (confidence.getD 0.5)
            reasoning := some "Extracted from partial response" }
        | .nothingFound => fallback_force symptoms clarifier_context
      else if clarifier_context.length ≥ 3 then
        fallback_max_clarifications symptoms
      else
        { emptyDiag with
          awaiting_field := some "clarifier_answer"
          console_output := some raw }

/-! ## Orchestrator state and graph nodes (`graph_orchestrator.py`) -/

/-- The `location_json` dict (either `{}` - all fields `none` - or the dict a
location agent or the GPS path stores). -/
structure LocationJson where
  current_location_name : Option String
  current_latitude : Option ℚ
  current_longitude : Option ℚ
  location_category : Option String
deriving Repr, DecidableEq

/-- The empty `location_json` dict `{}`. -/
def emptyLocationJson : LocationJson :=
  { current_location_name := none, current_latitude := none
    current_longitude := none, location_category := none }

/-- The report dict built by `bq_submission_node` (graph_orchestrator.py,
lines 461-486).  `current_latitude`/`current_longitude` default to `""` in the
source when absent, a type-level sloppiness modelled here as `none`; the three
hard-coded `False` activity flags and the derived booleans are kept. -/
structure Report where
  report_id : ℤ
  user_id : String
  report_timestamp : String
  symptom_text : String
  days_since_symptom_onset : Option ℤ
  final_diagnosis : Option String
  illness_category : Option String
  confidence : ℚ
  reasoning : Option String
  exposure_location_name : Option String
  exposure_latitude : Option ℚ
  exposure_longitude : Option ℚ
  days_since_exposure : Option ℤ
  current_location_name : String
  current_latitude : Option ℚ
  current_longitude : Option ℚ
  restaurant_visit : Bool
  outdoor_activity : Bool
  water_exposure : Bool
  location_category : String
  contagious_flag : Bool
  alertable_flag : Bool
deriving Repr, DecidableEq

/-- The shared `ChatState` (graph_orchestrator.py, lines 46-89).  History
entries are opaque strings; `care_advice` is an opaque record modelled by its
presence; `cluster_validation` and `care_advice` are `none` exactly when the
stored dict is absent or `{}` (the two falsy cases the source tests). -/
structure ChatState where
  user_input : String
  session_id : String
  user_id : Option String
  console_output : String
  history : List String
  symptoms : List String
  days_since_onset : Option ℤ
  diagnosis : DiagDict
  clarifier_context : List QA
  clarification_attempts : ℤ
  exposure_location_name : Option String
  exposure_latitude : Option ℚ
  exposure_longitude : Option ℚ
  days_since_exposure : Option ℤ
  exposure_awaiting_field : Option String
  exposure_partial_location : Option String
  exposure_partial_days : Option ℤ
  location_city_state : Option String
  location_venue : Option String
  location_json : LocationJson
  report : Option Report
  cluster_validation : Option AgentResult
  care_advice : Option String
  is_complete : Bool
deriving Repr, DecidableEq

/-- A state with every field empty or absent, used to build concrete states. -/
def emptyState : ChatState :=
  { user_input := "", session_id := "", user_id := none, console_output := ""
    history := [], symptoms := [], days_since_onset := none
    diagnosis := emptyDiag, clarifier_context := [], clarification_attempts := 0
    exposure_location_name := none, exposure_latitude := none
    exposure_longitude := none, days_since_exposure := none
    exposure_awaiting_field := none, exposure_partial_location := none
    exposure_partial_days := none, location_city_state := none
    location_venue := none, location_json := emptyLocationJson
    report := none, cluster_validation := none, care_advice := none
    is_complete := false }

/-- Source: `is_valid_location` (graph_orchestrator.py, lines 105-110).
The Python function returns `l and l not in [...]`, which a boolean context
reads as: non-`None`, a string, non-empty after stripping, and not one of the
five listed non-answers once stripped and lower-cased. -/
def is_valid_location (loc : Option String) : Bool :=
  match loc with
  | none => false
  | some s =>
    let l := py_lower (py_strip s)
    l != "" && !(["i don\x27t know", "unknown", "not sure", "idk", "no idea"].contains l)

/-- Source: `is_valid_days` (graph_orchestrator.py, lines 113-121); the state
stores the value as an integer already, so the `int(days)` conversion cannot
fail. -/
def is_valid_days (days : Option ℤ) : Bool :=
  match days with
  | none => false
  | some d => d ≥ 0

/-- Source: `determine_start_node` (graph_orchestrator.py, lines 123-162),
the Resume Resolver: a chain of early returns read top to bottom. -/
def determine_start_node (state : ChatState) : String :=
  if state.care_advice.isSome then "symptom_collection"
  else if state.cluster_validation.isSome then "care_advice"
  else if state.report.isSome then "cluster_validation"
  else if truthyStr state.location_json.current_location_name &&
          truthyStr state.exposure_location_name then "bq_submission"
  else if truthyStr state.exposure_location_name &&
          state.days_since_exposure.isSome then "location_collection"
  else if keyTruthy state.diagnosis.final_diagnosis &&
          state.diagnosis.awaiting_field = none then "exposure_collection"
  else if !state.symptoms.isEmpty && state.days_since_onset.isSome then "diagnosis"
  else "symptom_collection"

/-- Source: `route_after_exposure` (graph_orchestrator.py, lines 661-682);
`"END"` stands for the LangGraph `END` sentinel (wait for the user). -/
def route_after_exposure (state : ChatState) : String :=
  let has_location := is_valid_location state.exposure_location_name
  let has_days := is_valid_days state.days_since_exposure
  if ¬ (has_location && has_days) then "END"
  else if state.location_json.current_latitude.isSome &&
          state.location_json.current_longitude.isSome &&
          truthyStr state.location_json.current_location_name then "bq_submission"
  else "location_collection"

/-- The updates dict returned by `diagnosis_node`; `user_input = none` means
the key is not in the updates (the node leaves the previous value in place). -/
structure DiagNodeUpdates where
  diagnosis : DiagDict
  console_output : String
  clarification_attempts : ℤ
  user_input : Option String
  clarifier_context : List QA
deriving Repr, DecidableEq

/-- Source: `diagnosis_node` (graph_orchestrator.py, lines 220-304) as a
function of the state slice it reads and of the LLM reply consumed by the
diagnostic agent it calls.  The payload passes `state.get("days_since_onset", 0)`,
hence the `getD 0`.  The three user-facing confidence messages are abstracted
to their fixed leading text. -/
def diagnosis_node (diagnosis : DiagDict) (clarification_attempts : ℤ)
    (user_input : String) (symptoms : List String) (days_since_onset : Option ℤ)
    (clarifier_context : List QA) (reply : LLMReply) : DiagNodeUpdates :=
  let is_clarifying := diagnosis.awaiting_field = some "clarifier_answer"
  let clarifier_context :=
    if is_clarifying ∧ user_input ≠ "" then
      clarifier_context ++ [{ question := diagnosis.console_output.getD "",
                              answer := user_input }]
    else clarifier_context
  let attempts := clarification_attempts
  let force_final := attempts ≥ 3
  let diag := run_diagnostic_core symptoms (some (days_since_onset.getD 0))
    clarifier_context force_final reply
  if diag.awaiting_field = some "clarifier_answer" ∧ ¬ force_final then
    { diagnosis := diag
      console_output := diag.console_output.getD "Please answer:"
      clarification_attempts := attempts + 1
      user_input := none
      clarifier_context := clarifier_context }
  else if keyTruthy diag.final_diagnosis then
    let confidence := diag.confidence.getD 0
    let final_diag := (dictGetOpt diag.final_diagnosis).getD "Unknown"
    let clean_diagnosis : DiagDict :=
      { emptyDiag with
        final_diagnosis := some (some final_diag)
        illness_category := some (diag.illness_category.getD (some "other"))
        confidence := some confidence
        reasoning := some (diag.reasoning.getD "") }
    { diagnosis := clean_diagnosis
      console_output :=
        if final_diag = "Unknown (insufficient data)" then
          "We couldn\x27t identify your condition. Please consult a healthcare professional."
        else if confidence < 0.5 then "Low confidence diagnosis"
        else "Preliminary Diagnosis"
      clarification_attempts := 0
      user_input := some ""
      clarifier_context := clarifier_context }
  else
    { diagnosis := diag
      console_output := "Unable to generate diagnosis. Please consult a healthcare professional."
      clarification_attempts := 0
      user_input := some ""
      clarifier_context := clarifier_context }

/-- Source: the report built by `bq_submission_node` (graph_orchestrator.py,
lines 436-497).  `python_hash` abstracts the process-seeded built-in `hash`;
`now` abstracts `datetime.now(timezone.utc).isoformat()`.  Python `%` on a
positive modulus agrees with `Int.emod`. -/
def bq_report (python_hash : String → ℤ) (now : String) (state : ChatState) : Report :=
  let report_id := python_hash state.session_id % 1000000
  let diagnosis := state.diagnosis
  let location_json := state.location_json
  let user_id_str :=
    match state.user_id with
    | some u => if u ≠ "" ∧ u ≠ "anonymous" then u else "1"
    | none => "1"
  { report_id := report_id
    user_id := user_id_str
    report_timestamp := now
    symptom_text := String.intercalate ", " state.symptoms
    days_since_symptom_onset := state.days_since_onset
    final_diagnosis := match diagnosis.final_diagnosis with | none => some "" | some v => v
    illness_category := match diagnosis.illness_category with | none => some "" | some v => v
    confidence := diagnosis.confidence.getD 0
    reasoning := match diagnosis.reasoning with | none => some "" | some v => some v
    exposure_location_name := state.exposure_location_name
    exposure_latitude := state.exposure_latitude
    exposure_longitude := state.exposure_longitude
    days_since_exposure := state.days_since_exposure
    current_location_name := location_json.current_location_name.getD ""
    current_latitude := location_json.current_latitude
    current_longitude := location_json.current_longitude
    restaurant_visit := false
    outdoor_activity := false
    water_exposure := false
    location_category := location_json.location_category.getD ""
    contagious_flag := dictGetOpt diagnosis.illness_category = some "airborne"
    alertable_flag := (dictGetOpt diagnosis.illness_category).elim false
      (fun c => ["airborne", "waterborne", "insect-borne", "foodborne"].contains c)
    }

/-- Source: `cluster_validation_node` (graph_orchestrator.py, lines 507-596)
as a state transformer under the explicit resume path's `dict.update`
semantics (graph_orchestrator.py, lines 953-983), parameterised by the
query-store outcome consumed by the cluster-validation agent.  The agent
returns the history unchanged, so the rewritten `history` key carries the
same value. -/
def cluster_validation_node (state : ChatState) (query_outcome : Option ClusterData) :
    ChatState :=
  let diagnosis := state.diagnosis
  let user_disease := dictGetOpt diagnosis.final_diagnosis
  let user_confidence := diagnosis.confidence.getD 0.5
  let exposure_lat := state.exposure_latitude
  let exposure_lon := state.exposure_longitude
  let days_since_exposure := state.days_since_exposure
  let illness_category := dictGetOpt diagnosis.illness_category
  if ¬ (truthyStr user_disease ∧ exposure_lat ≠ none ∧ exposure_lon ≠ none ∧
        days_since_exposure ≠ none) then
    { state with cluster_validation := none, console_output := "" }
  else
    let validation_payload : ClusterPayload :=
      { user_disease := user_disease
        user_confidence := user_confidence
        exposure_latitude := exposure_lat
        exposure_longitude := exposure_lon
        days_since_exposure := days_since_exposure
        illness_category := illness_category }
    let validation_result := run_cluster_validation_core validation_payload query_outcome
    let base := { state with
      cluster_validation := some validation_result
      console_output := "" }
    if validation_result.cluster_found then
      let validation_type := validation_result.validation_result
      if validation_type = "ALTERNATIVE" ∨ validation_type = "CONFIRMED" then
        let refined_diagnosis : DiagDict :=
          { emptyDiag with
            final_diagnosis := some validation_result.refined_diagnosis
            illness_category := some (dictGetOpt diagnosis.illness_category)
            confidence := validation_result.refined_confidence
            reasoning := validation_result.reasoning
            cluster_validated := some true
            original_diagnosis := some validation_result.original_diagnosis
            original_diagnosis_confidence := some user_confidence
            validation_type := some validation_type }
        let cluster_message := (validation_result.console_output.getD "")
        { base with
          diagnosis := refined_diagnosis
          console_output := if cluster_message ≠ "" then cluster_message else "" }
      else base
    else base

/-! ## The Resume Resolver walk as the spec states it -/

/-- The stages of the conversation state machine, in the spec's fixed order,
with `DoneNothing` for "care advice already present, nothing left to do". -/
inductive Stage where
  | Symptoms | Diagnosis | Exposure | Location | Submission
  | ClusterValidation | Advice | DoneNothing
deriving Repr, DecidableEq

/-- The graph node each stage resolves to.  `DoneNothing` maps to the entry
node, matching the source's `return "symptom_collection"  # Already done`. -/
def stageNode (s : Stage) : String :=
  match s with
  | .Symptoms => "symptom_collection"
  | .Diagnosis => "diagnosis"
  | .Exposure => "exposure_collection"
  | .Location => "location_collection"
  | .Submission => "bq_submission"
  | .ClusterValidation => "cluster_validation"
  | .Advice => "care_advice"
  | .DoneNothing => "symptom_collection"

/-- Exposure completeness as the spec's walk reads it: the exposure location
name is populated and the days-since-exposure value is present. -/
def exposureComplete (state : ChatState) : Bool :=
  truthyStr state.exposure_location_name && state.days_since_exposure.isSome

/-- Current-location completeness as the resolver reads it: the
`current_location_name` of `location_json` is populated. -/
def locationComplete (state : ChatState) : Bool :=
  truthyStr state.location_json.current_location_name

/-- A finalized diagnosis with no pending clarification: `final_diagnosis`
is populated and no `awaiting_field` key is present. -/
def diagnosisFinalized (state : ChatState) : Bool :=
  keyTruthy state.diagnosis.final_diagnosis && state.diagnosis.awaiting_field = none

/-- The backward walk exactly as the spec sentence states it (spec section
4.1): "if care_advice present - nothing left to do; elif cluster_validation
present - Advice; elif report present - ClusterValidation; elif
location+exposure both complete - Submission; elif exposure complete but
location incomplete - Location; elif diagnosis finalized (no pending
clarification) - Exposure; elif symptoms+onset complete - Diagnosis; else -
Symptoms".  Written from the spec's words, to be compared with
`determine_start_node`, which is written from the source. -/
def resume_walk_spec (state : ChatState) : Stage :=
  if state.care_advice.isSome then .DoneNothing
  else if state.cluster_validation.isSome then .Advice
  else if state.report.isSome then .ClusterValidation
  else if locationComplete state && exposureComplete state then .Submission
  else if exposureComplete state && !locationComplete state then .Location
  else if diagnosisFinalized state then .Exposure
  else if !state.symptoms.isEmpty && state.days_since_onset.isSome then .Diagnosis
  else .Symptoms

/-- The spec walk with the one branch the source forces to change: the
Submission branch fires as soon as the current-location name and the exposure
location name are both populated, without requiring the days-since-exposure
half of the exposure record.  All other branches are as in
`resume_walk_spec`. -/
def resume_walk_amended (state : ChatState) : Stage :=
  if state.care_advice.isSome then .DoneNothing
  else if state.cluster_validation.isSome then .Advice
  else if state.report.isSome then .ClusterValidation
  else if locationComplete state && truthyStr state.exposure_location_name then .Submission
  else if exposureComplete state && !locationComplete state then .Location
  else if diagnosisFinalized state then .Exposure
  else if !state.symptoms.isEmpty && state.days_since_onset.isSome then .Diagnosis
  else .Symptoms

/-! ## Claim C3 -/

/-- Claim C3: the confidence boost applied on a CONFIRMED verdict is
monotonically non-decreasing in cluster size and in consensus ratio, and for
every starting user confidence in [0,1] the adjusted confidence after the
boost (as computed in the CONFIRMED branch of `validate_diagnosis`) never
exceeds 0.99. -/
theorem confidence_boost_monotone_and_capped :
    (∀ (s1 s2 : ℤ) (c : ℚ), s1 ≤ s2 →
      calculate_confidence_boost s1 c ≤ calculate_confidence_boost s2 c) ∧
    (∀ (s : ℤ) (c1 c2 : ℚ), c1 ≤ c2 →
      calculate_confidence_boost s c1 ≤ calculate_confidence_boost s c2) ∧
    (∀ (d : String) (conf : ℚ) (cat : Option String) (c : ClusterData),
      0 ≤ conf → conf ≤ 1 → d = c.predominant_disease →
      (validate_diagnosis d conf cat (some c)).refined_confidence ≤ 0.99) := by
  refine ⟨?_, ?_, ?_⟩
  · intro s1 s2 c h
    simp only [calculate_confidence_boost]
    refine min_le_min (add_le_add ?_ le_rfl) le_rfl
    split_ifs <;> first | (exfalso; omega) | norm_num
  · intro s c1 c2 h
    simp only [calculate_confidence_boost]
    refine min_le_min (add_le_add le_rfl ?_) le_rfl
    split_ifs <;> first | (exfalso; linarith) | norm_num
  · intro d conf cat c h0 h1 hd
    simp only [validate_diagnosis]
    rw [if_pos hd]
    exact min_le_right _ _

/-- Witness for C3 at concrete inputs. -/
theorem confidence_boost_monotone_witness :
    calculate_confidence_boost 5 0.8 ≤ calculate_confidence_boost 21 0.8 ∧
    calculate_confidence_boost 10 0.65 ≤ calculate_confidence_boost 10 0.92 ∧
    (validate_diagnosis "Norovirus" 0.9 (some "foodborne")
      (some { cluster_size := 10, predominant_disease := "Norovirus",
              consensus_ratio := 0.9, predominant_category := some "foodborne" })).refined_confidence ≤ 0.99 :=
  ⟨confidence_boost_monotone_and_capped.1 5 21 0.8 (by norm_num),
   confidence_boost_monotone_and_capped.2.1 10 0.65 0.92 (by norm_num),
   confidence_boost_monotone_and_capped.2.2 "Norovirus" 0.9 (some "foodborne")
     { cluster_size := 10, predominant_disease := "Norovirus",
       consensus_ratio := 0.9, predominant_category := some "foodborne" }
     (by norm_num) (by norm_num) rfl⟩

/-! ## Claim C4 -/

/-- Claim C4 (refuting): the acceptance threshold that an
alternative-confidence score must clear in `validate_diagnosis` is 0.50 when
the user's illness category matches the cluster's predominant category and
0.45 when the categories differ - the category-matched threshold is strictly
HIGHER, not strictly lower as the claim (and the source's own comment
"Lower threshold if same category, higher if different") state. -/
theorem alternative_threshold_higher_for_category_match :
    confidence_threshold true = 0.50 ∧ confidence_threshold false = 0.45 ∧
    confidence_threshold false < confidence_threshold true := by
  refine ⟨rfl, rfl, ?_⟩
  norm_num [confidence_threshold]

/-! ## Claim C5 -/

/-- Claim C5: `validate_diagnosis` returns an ALTERNATIVE verdict only when
the matched cluster's consensus ratio is at least 0.60; when the predominant
disease differs from the user's diagnosis and consensus is below 0.60 the
verdict is WEAK_MATCH, with the original diagnosis and confidence returned
unchanged. -/
theorem alternative_requires_consensus_and_weak_match_preserves :
    ∀ (d : String) (conf : ℚ) (cat : Option String) (c : ClusterData),
      ((validate_diagnosis d conf cat (some c)).validation_result = "ALTERNATIVE" →
        0.60 ≤ c.consensus_ratio) ∧
      (c.predominant_disease ≠ d → c.consensus_ratio < 0.60 →
        (validate_diagnosis d conf cat (some c)).validation_result = "WEAK_MATCH" ∧
        (validate_diagnosis d conf cat (some c)).refined_diagnosis = d ∧
        (validate_diagnosis d conf cat (some c)).refined_confidence = conf) := by
  intro d conf cat c
  constructor
  · intro h
    by_contra hc
    push_neg at hc
    simp only [validate_diagnosis] at h
    split_ifs at h with h1 h2
    · exact (show ("CONFIRMED" : String) ≠ "ALTERNATIVE" from by decide) h
    · exact absurd h2.1 (not_le.mpr hc)
    · exact (show ("WEAK_MATCH" : String) ≠ "ALTERNATIVE" from by decide) h
  · intro hne hlt
    simp only [validate_diagnosis]
    split_ifs with hA hB
    · exact absurd hA.symm hne
    · exact absurd hB.1 (not_le.mpr hlt)
    · exact ⟨rfl, rfl, rfl⟩

/-- Witness for C5: the spec's own scenario - cluster of size 27, consensus
0.44, same category but a different disease - yields WEAK_MATCH with the
original diagnosis and confidence retained. -/
theorem weak_match_scenario_witness :
    (validate_diagnosis "Salmonella" 0.7 (some "foodborne")
      (some { cluster_size := 27, predominant_disease := "Norovirus",
              consensus_ratio := 0.44, predominant_category := some "foodborne" })).validation_result = "WEAK_MATCH" ∧
    (validate_diagnosis "Salmonella" 0.7 (some "foodborne")
      (some { cluster_size := 27, predominant_disease := "Norovirus",
              consensus_ratio := 0.44, predominant_category := some "foodborne" })).refined_diagnosis = "Salmonella" ∧
    (validate_diagnosis "Salmonella" 0.7 (some "foodborne")
      (some { cluster_size := 27, predominant_disease := "Norovirus",
              consensus_ratio := 0.44, predominant_category := some "foodborne" })).refined_confidence = 0.7 :=
  (alternative_requires_consensus_and_weak_match_preserves "Salmonella" 0.7
    (some "foodborne")
    { cluster_size := 27, predominant_disease := "Norovirus",
      consensus_ratio := 0.44, predominant_category := some "foodborne" }).2
    (by decide) (by norm_num)

/-! ## Claim C6 -/

/-- Claim C6: when the Query Store call fails or returns no data during
cluster matching (both collapse to an empty cluster dict), the
cluster-validation agent reports verdict NO_MATCH with the user's diagnosis
and confidence unchanged, and still produces a normal result record (empty
console message, no error), so the turn proceeds to advice generation. -/
theorem query_store_failure_degrades_to_no_match :
    ∀ (data : ClusterPayload),
      truthyStr data.user_disease = true →
      data.exposure_latitude ≠ none →
      data.exposure_longitude ≠ none →
      data.days_since_exposure ≠ none →
      (run_cluster_validation_core data none).validation_result = "NO_MATCH" ∧
      (run_cluster_validation_core data none).cluster_found = false ∧
      (run_cluster_validation_core data none).refined_diagnosis =
        some (data.user_disease.getD "") ∧
      (run_cluster_validation_core data none).refined_confidence =
        some data.user_confidence ∧
      (run_cluster_validation_core data none).console_output = some "" ∧
      (run_cluster_validation_core data none).error = none := by
  intro data h1 h2 h3 h4
  simp only [run_cluster_validation_core]
  rw [if_neg (not_not_intro ⟨h1, h2, h3, h4⟩)]
  exact ⟨rfl, rfl, rfl, rfl, rfl, rfl⟩

/-- Witness for C6 at a concrete payload. -/
theorem query_store_failure_witness :
    (run_cluster_validation_core
      { user_disease := some "Norovirus", user_confidence := 0.7,
        exposure_latitude := some 41, exposure_longitude := some (-87),
        days_since_exposure := some 2, illness_category := some "foodborne" }
      none).validation_result = "NO_MATCH" ∧
    (run_cluster_validation_core
      { user_disease := some "Norovirus", user_confidence := 0.7,
        exposure_latitude := some 41, exposure_longitude := some (-87),
        days_since_exposure := some 2, illness_category := some "foodborne" }
      none).cluster_found = false ∧
    (run_cluster_validation_core
      { user_disease := some "Norovirus", user_confidence := 0.7,
        exposure_latitude := some 41, exposure_longitude := some (-87),
        days_since_exposure := some 2, illness_category := some "foodborne" }
      none).refined_diagnosis = some (((some "Norovirus") : Option String).getD "") ∧
    (run_cluster_validation_core
      { user_disease := some "Norovirus", user_confidence := 0.7,
        exposure_latitude := some 41, exposure_longitude := some (-87),
        days_since_exposure := some 2, illness_category := some "foodborne" }
      none).refined_confidence = some 0.7 ∧
    (run_cluster_validation_core
      { user_disease := some "Norovirus", user_confidence := 0.7,
        exposure_latitude := some 41, exposure_longitude := some (-87),
        days_since_exposure := some 2, illness_category := some "foodborne" }
      none).console_output = some "" ∧
    (run_cluster_validation_core
      { user_disease := some "Norovirus", user_confidence := 0.7,
        exposure_latitude := some 41, exposure_longitude := some (-87),
        days_since_exposure := some 2, illness_category := some "foodborne" }
      none).error = none :=
  query_store_failure_degrades_to_no_match
    { user_disease := some "Norovirus", user_confidence := 0.7,
      exposure_latitude := some 41, exposure_longitude := some (-87),
      days_since_exposure := some 2, illness_category := some "foodborne" }
    rfl (Option.some_ne_none _) (Option.some_ne_none _) (Option.some_ne_none _)

/-! ## Claims C2 and C7 -/

/-- Whether the LLM reply supplies no diagnosis at all: it is not a parsed
JSON object carrying both diagnosis keys, and (when unparseable) the
mixed-text extraction finds nothing on either of its paths. -/
def supplies_no_diagnosis (reply : LLMReply) : Bool :=
  match reply with
  | .jsonObj _ obj => !(obj.final_diagnosis.isSome && obj.illness_category.isSome)
  | .freeText _ extraction =>
    match extraction with
    | .nothingFound => true
    | _ => false

/-- Whether the reply is unparseable text whose embedded-JSON extraction
path fires: besides a compliant whole-text parse, the one forced-mode case
in which the agent passes a dict through unchanged. -/
def extracts_embedded_json (reply : LLMReply) : Bool :=
  match reply with
  | .freeText _ (.embeddedJson _) => true
  | _ => false

/-- In forced mode, a reply that supplies no diagnosis lands in the
deterministic keyword fallback. -/
theorem run_diagnostic_forced_fallback :
    ∀ (symptoms : List String) (days : ℤ) (ctx : List QA) (reply : LLMReply),
      symptoms ≠ [] → supplies_no_diagnosis reply = true →
      run_diagnostic_core symptoms (some days) ctx true reply =
        fallback_force symptoms ctx := by
  intro symptoms days ctx reply hsy h
  cases symptoms with
  | nil => exact absurd rfl hsy
  | cons a as =>
    cases reply with
    | jsonObj raw obj =>
      simp only [supplies_no_diagnosis, Bool.not_eq_true'] at h
      simp only [run_diagnostic_core]
      rw [if_neg (by simp), h, if_neg (by simp), if_pos trivial]
    | freeText raw extraction =>
      cases extraction with
      | embeddedJson obj => simp [supplies_no_diagnosis] at h
      | manualFields fd ic conf => simp [supplies_no_diagnosis] at h
      | nothingFound => rfl

/-- The keyword fallback always carries a non-null diagnosis string. -/
theorem fallback_force_final_nonnull :
    ∀ (symptoms : List String) (ctx : List QA),
      ∃ s, (fallback_force symptoms ctx).final_diagnosis = some (some s) := by
  intro symptoms ctx
  simp only [fallback_force]
  split_ifs <;> exact ⟨_, rfl⟩

/-- On the symptoms of the C7 scenario the fallback picks the foodborne
branch (keyword match) with confidence 0.65, whatever the clarifier
answers were. -/
theorem fallback_force_stomach :
    ∀ (ctx : List QA),
      (fallback_force ["stomach cramps", "nausea"] ctx).illness_category =
        some (some "foodborne") ∧
      (fallback_force ["stomach cramps", "nausea"] ctx).confidence = some 0.65 := by
  intro ctx
  simp only [fallback_force]
  have hgi : (["nausea", "vomit", "diarrhea", "stomach", "cramp"].any
      (fun x => py_in x (String.intercalate " "
        (["stomach cramps", "nausea"].map py_lower)))) = true := by decide
  split_ifs with h1 h2 h3
  · exact ⟨rfl, rfl⟩
  · exact ⟨rfl, rfl⟩
  · exfalso; apply h1; rw [hgi]; simp
  · exfalso; apply h1; rw [hgi]; simp

/-- A whole-text JSON reply carrying both diagnosis keys with a null
`final_diagnosis` value. -/
def nullDiagReplyObj : DiagDict :=
  { emptyDiag with
    final_diagnosis := some none
    illness_category := some (some "other") }

/-- What the embedded-JSON extraction path hands back for an unparseable
forced-mode reply whose matched substring is the object with a null
`final_diagnosis` and no `illness_category` key. -/
def nullEmbeddedObj : DiagDict := { emptyDiag with final_diagnosis := some none }

/-- Claim C2 (refuting the unconditional forced-mode guarantee): the agent
passes parsed dicts through unchanged on two paths - a whole-text JSON parse
carrying both diagnosis keys, and the embedded-JSON extraction of an
unparseable reply - and on either path a null `final_diagnosis` value
survives into the returned record even in forced mode. -/
theorem forced_diagnosis_null_passthrough :
    (run_diagnostic_core ["fever"] (some 2) [] true
      (.jsonObj "reply" nullDiagReplyObj)).final_diagnosis = some none ∧
    (run_diagnostic_core ["fever"] (some 2) [] true
      (.freeText "sure thing" (.embeddedJson nullEmbeddedObj))).final_diagnosis =
      some none := by
  exact ⟨by decide, by decide⟩

/-- Claim C2 (amended): `diagnosis_node` never lets `clarification_attempts`
exceed 3 (it increments only below the cap of 3 and resets to 0 otherwise),
and in forced mode the diagnostic agent returns a record with a non-null
`final_diagnosis` whenever the reply is neither a parsed JSON object
carrying both the `final_diagnosis` and `illness_category` keys nor
unparseable text whose embedded-JSON extraction hands back a parsed dict -
outside those two pass-throughs, the manual regex extraction and the
deterministic keyword fallback both produce a non-null diagnosis. -/
theorem clarification_bounded_and_forced_fallback_nonnull :
    (∀ (diagnosis : DiagDict) (clarification_attempts : ℤ) (user_input : String)
       (symptoms : List String) (days_since_onset : Option ℤ)
       (clarifier_context : List QA) (reply : LLMReply),
      (diagnosis_node diagnosis clarification_attempts user_input symptoms
        days_since_onset clarifier_context reply).clarification_attempts ≤ 3) ∧
    (∀ (symptoms : List String) (days : ℤ) (ctx : List QA) (reply : LLMReply),
      symptoms ≠ [] → is_compliant_diag_json reply = false →
      extracts_embedded_json reply = false →
      ∃ s, (run_diagnostic_core symptoms (some days) ctx true reply).final_diagnosis =
        some (some s)) := by
  constructor
  · intro diagnosis clarification_attempts user_input symptoms days ctx reply
    simp only [diagnosis_node]
    split_ifs <;>
      first
        | (show (0:ℤ) ≤ 3; norm_num)
        | (show clarification_attempts + 1 ≤ 3; omega)
  · intro symptoms days ctx reply hsy hcomp hemb
    cases symptoms with
    | nil => exact absurd rfl hsy
    | cons a as =>
      cases reply with
      | jsonObj raw obj =>
        simp only [is_compliant_diag_json] at hcomp
        simp only [run_diagnostic_core]
        rw [if_neg (by simp), hcomp, if_neg (by simp), if_pos trivial]
        exact fallback_force_final_nonnull _ _
      | freeText raw extraction =>
        cases extraction with
        | embeddedJson obj => simp [extracts_embedded_json] at hemb
        | manualFields fd ic conf => exact ⟨fd, rfl⟩
        | nothingFound => exact ⟨_, (congrArg DiagDict.final_diagnosis
            (run_diagnostic_forced_fallback (a :: as) days ctx
              (.freeText raw .nothingFound) hsy rfl)).trans
            (fallback_force_final_nonnull (a :: as) ctx).choose_spec⟩

/-- Witness for C2 at concrete inputs. -/
theorem clarification_bounded_witness :
    (diagnosis_node emptyDiag 0 "" ["fever"] (some 1) []
      (.freeText "Could you clarify" .nothingFound)).clarification_attempts ≤ 3 ∧
    ∃ s, (run_diagnostic_core ["fever"] (some 2) [] true
      (.freeText "no structured reply" .nothingFound)).final_diagnosis =
      some (some s) :=
  ⟨clarification_bounded_and_forced_fallback_nonnull.1 emptyDiag 0 "" ["fever"]
      (some 1) [] (.freeText "Could you clarify" .nothingFound),
   clarification_bounded_and_forced_fallback_nonnull.2 ["fever"] 2 []
      (.freeText "no structured reply" .nothingFound) (by decide) rfl rfl⟩

/-- Claim C7: for symptoms ["stomach cramps", "nausea"] with onset 2 days,
when the diagnosis is forced and the extraction step supplies no diagnosis,
the deterministic fallback produces a record with illness_category
"foodborne" and confidence at most 0.65, whatever the clarifier rounds
contained. -/
theorem forced_fallback_foodborne_scenario :
    ∀ (ctx : List QA) (reply : LLMReply), supplies_no_diagnosis reply = true →
      (run_diagnostic_core ["stomach cramps", "nausea"] (some 2) ctx true
        reply).illness_category = some (some "foodborne") ∧
      ∃ q, (run_diagnostic_core ["stomach cramps", "nausea"] (some 2) ctx true
        reply).confidence = some q ∧ q ≤ 0.65 := by
  intro ctx reply h
  rw [run_diagnostic_forced_fallback _ 2 ctx reply (by decide) h]
  obtain ⟨h1, h2⟩ := fallback_force_stomach ctx
  exact ⟨h1, 0.65, h2, le_refl _⟩

/-- Witness for C7: three declined clarification rounds, extraction supplies
nothing. -/
theorem forced_fallback_foodborne_witness :
    supplies_no_diagnosis (.freeText "need more information" .nothingFound) = true ∧
    ((run_diagnostic_core ["stomach cramps", "nausea"] (some 2)
        [{ question := "Do you have a fever?", answer := "no" },
         { question := "Any recent travel?", answer := "no" },
         { question := "Did you eat out recently?", answer := "not sure" }]
        true (.freeText "need more information" .nothingFound)).illness_category =
      some (some "foodborne") ∧
    ∃ q, (run_diagnostic_core ["stomach cramps", "nausea"] (some 2)
        [{ question := "Do you have a fever?", answer := "no" },
         { question := "Any recent travel?", answer := "no" },
         { question := "Did you eat out recently?", answer := "not sure" }]
        true (.freeText "need more information" .nothingFound)).confidence = some q ∧
      q ≤ 0.65) :=
  ⟨rfl, forced_fallback_foodborne_scenario
    [{ question := "Do you have a fever?", answer := "no" },
     { question := "Any recent travel?", answer := "no" },
     { question := "Did you eat out recently?", answer := "not sure" }]
    (.freeText "need more information" .nothingFound) rfl⟩

/-! ## Claim C1 -/

/-- A persisted record with a finalized diagnosis, an exposure location name
but no days-since-exposure value, and a GPS-resolved current location. -/
def resumeIncompleteExposureState : ChatState :=
  { emptyState with
    symptoms := ["fever"]
    days_since_onset := some 1
    diagnosis := { emptyDiag with
      final_diagnosis := some (some "Influenza")
      illness_category := some (some "airborne")
      confidence := some 0.8 }
    exposure_location_name := some "Downtown Cafe"
    days_since_exposure := none
    location_json := { emptyLocationJson with
      current_location_name := some "Chicago"
      current_latitude := some 41
      current_longitude := some (-87) } }

/-- Claim C1 (refuting the exact spec walk): on a record whose exposure
record is half complete (location name present, days absent) while the
current location is known, `determine_start_node` resolves to the submission
node, whereas the spec's backward walk - which requires the exposure record
to be complete before Submission - resolves to the Exposure stage. -/
theorem determine_start_node_diverges_from_spec_walk :
    determine_start_node resumeIncompleteExposureState = "bq_submission" ∧
    resume_walk_spec resumeIncompleteExposureState = Stage.Exposure ∧
    determine_start_node resumeIncompleteExposureState ≠
      stageNode (resume_walk_spec resumeIncompleteExposureState) := by
  refine ⟨rfl, rfl, ?_⟩
  decide

/-- Claim C1 (amended): `determine_start_node` follows the spec's backward
walk with the Submission branch weakened to "current-location name and
exposure location name both populated" (the days half of the exposure record
is not required there), and it is idempotent, being a pure function of the
record. -/
theorem determine_start_node_follows_amended_walk :
    ∀ state : ChatState,
      determine_start_node state = stageNode (resume_walk_amended state) ∧
      determine_start_node state = determine_start_node state := by
  intro state
  refine ⟨?_, rfl⟩
  simp only [determine_start_node, resume_walk_amended, exposureComplete,
    locationComplete, diagnosisFinalized]
  split_ifs <;> first | rfl | simp_all

/-! ## Claim C8 -/

/-- Claim C8 (refuting the spec's set): "n/a" is NOT in the source's fixed
list of non-answers, so `is_valid_location` accepts it as a valid location. -/
theorem is_valid_location_accepts_na : is_valid_location (some "n/a") = true := by
  decide

/-- Claim C8 (amended): the fixed set of non-answers rejected by
`is_valid_location` (in any letter case, with surrounding whitespace) is
"i don't know", "unknown", "not sure", "idk", "no idea" - "n/a" is not among
them - and `route_after_exposure` treats an invalid exposure location as
absent, suspending the turn instead of advancing. -/
theorem invalid_location_fixed_set :
    (∀ s : String, py_lower (py_strip s) ∈
        (["i don\x27t know", "unknown", "not sure", "idk", "no idea"] : List String) →
      is_valid_location (some s) = false) ∧
    (∀ state : ChatState, is_valid_location state.exposure_location_name = false →
      route_after_exposure state = "END") := by
  constructor
  · intro s hs
    simp only [List.mem_cons, List.mem_singleton, List.not_mem_nil, or_false] at hs
    simp only [is_valid_location]
    rcases hs with h | h | h | h | h <;> rw [h] <;> decide
  · intro state h
    simp only [route_after_exposure, h]
    simp

/-- A state whose exposure location is the non-answer "unknown". -/
def invalidLocationState : ChatState :=
  { emptyState with
    exposure_location_name := some "unknown"
    days_since_exposure := some 2 }

/-- Witness for C8 at concrete non-answers. -/
theorem invalid_location_fixed_set_witness :
    is_valid_location (some "  Not Sure ") = false ∧
    route_after_exposure invalidLocationState = "END" :=
  ⟨invalid_location_fixed_set.1 "  Not Sure " (by decide),
   invalid_location_fixed_set.2 invalidLocationState (by decide)⟩

/-! ## Claim C9 -/

/-- Pairwise distinct session-id strings, one per natural number. -/
def strOfNat (n : ℕ) : String := String.mk (List.replicate n 'a')

/-- The session-id family is injective (the strings have distinct lengths). -/
theorem strOfNat_injective : Function.Injective strOfNat := by
  intro m n h
  have hd := congrArg String.data h
  simp only [strOfNat] at hd
  have hl := congrArg List.length hd
  simpa using hl

/-- Claim C9: the report identifier is a pure function of the session id
alone - `hash(session_id) % 1000000` - so two submissions for the same
session id (under the same process hash seed) get the same report id
whatever the rest of the state holds, and for every hash function there are
two distinct session ids whose reports collide: it is not a unique generated
identifier. -/
theorem report_id_session_only_and_collides :
    (∀ (python_hash : String → ℤ) (now1 now2 : String) (s1 s2 : ChatState),
      s1.session_id = s2.session_id →
      (bq_report python_hash now1 s1).report_id =
        (bq_report python_hash now2 s2).report_id) ∧
    (∀ python_hash : String → ℤ, ∃ a b : String, a ≠ b ∧
      (bq_report python_hash "t" { emptyState with session_id := a }).report_id =
        (bq_report python_hash "t" { emptyState with session_id := b }).report_id) := by
  constructor
  · intro python_hash now1 now2 s1 s2 hs
    simp only [bq_report, hs]
  · intro python_hash
    obtain ⟨i, j, hij, hfij⟩ :=
      Fintype.exists_ne_map_eq_of_card_lt
        (fun i : Fin 1000001 =>
          (⟨(python_hash (strOfNat i.val) % 1000000).toNat, by
            have h1 := Int.emod_nonneg (python_hash (strOfNat i.val))
              (show (1000000 : ℤ) ≠ 0 by norm_num)
            have h2 := Int.emod_lt_of_pos (python_hash (strOfNat i.val))
              (show (0 : ℤ) < 1000000 by norm_num)
            omega⟩ : Fin 1000000))
        (by simp only [Fintype.card_fin]; norm_num)
    refine ⟨strOfNat i.val, strOfNat j.val,
      fun hab => hij (Fin.ext (strOfNat_injective hab)), ?_⟩
    have hv := congrArg Fin.val hfij
    simp only at hv
    show python_hash (strOfNat i.val) % 1000000 = python_hash (strOfNat j.val) % 1000000
    have h1 := Int.emod_nonneg (python_hash (strOfNat i.val))
      (show (1000000 : ℤ) ≠ 0 by norm_num)
    have h2 := Int.emod_nonneg (python_hash (strOfNat j.val))
      (show (1000000 : ℤ) ≠ 0 by norm_num)
    omega

/-- Two states sharing a session id but differing elsewhere. -/
def sessionStateA : ChatState := { emptyState with session_id := "abc" }

/-- Same session id as `sessionStateA`, different remaining fields. -/
def sessionStateB : ChatState :=
  { emptyState with session_id := "abc", symptoms := ["cough"], user_id := some "u7" }

/-- Witness for C9 at a concrete hash function and states. -/
theorem report_id_session_only_witness :
    (bq_report (fun s => (s.length : ℤ)) "t1" sessionStateA).report_id =
      (bq_report (fun s => (s.length : ℤ)) "t2" sessionStateB).report_id :=
  report_id_session_only_and_collides.1 (fun s => (s.length : ℤ)) "t1" "t2"
    sessionStateA sessionStateB rfl

/-! ## Claim C10 -/

/-- A state about to run cluster validation: finalized foodborne diagnosis,
complete exposure data, and a previous console message. -/
def clusterValSourceState : ChatState :=
  { emptyState with
    console_output := "previous message"
    diagnosis := { emptyDiag with
      final_diagnosis := some (some "Salmonella")
      illness_category := some (some "foodborne")
      confidence := some 0.5 }
    exposure_latitude := some 41
    exposure_longitude := some (-87)
    days_since_exposure := some 2 }

/-- A matched cluster whose predominant disease differs from the user's. -/
def altCluster : ClusterData :=
  { cluster_size := 10, predominant_disease := "Norovirus",
    consensus_ratio := 0.9, predominant_category := some "foodborne" }

/-- Claim C10 (refuting the full frame): the cluster-validation node does
rewrite state fields beyond the diagnosis - here an ALTERNATIVE verdict is
adopted and the console output changes. -/
theorem cluster_validation_node_writes_own_outputs :
    (cluster_validation_node clusterValSourceState
        (some altCluster)).diagnosis.validation_type = some "ALTERNATIVE" ∧
    (cluster_validation_node clusterValSourceState (some altCluster)).console_output ≠
      clusterValSourceState.console_output := by
  have h1 : ("Salmonella" : String) ≠ "" := by decide
  have h2 : ("Salmonella" : String) ≠ "Norovirus" := by decide
  have h3 : ("ALTERNATIVE" : String) ≠ "NO_MATCH" := by decide
  have h4 : ("ALTERNATIVE" : String) ≠ "CONFIRMED" := by decide
  have h5 : ("ALTERNATIVE DIAGNOSIS SUGGESTED" : String) ≠ "" := by decide
  have h6 : ("ALTERNATIVE DIAGNOSIS SUGGESTED" : String) ≠ "previous message" := by decide
  norm_num [cluster_validation_node, run_cluster_validation_core, validate_diagnosis,
    calculate_alternative_confidence, confidence_threshold, format_cluster_alert,
    clusterValSourceState, altCluster, emptyState, emptyDiag, emptyLocationJson,
    dictGetOpt, truthyStr, keyTruthy, Option.some_ne_none, ne_eq,
    h1, h2, h3, h4, h5, h6]

/-- Claim C10 (amended): the refined diagnosis adopted on a CONFIRMED or
ALTERNATIVE verdict copies `illness_category` from the user's original
diagnosis - the category is preserved through the node in every branch - and
every state field other than the diagnosis, the `cluster_validation` record
and the console output is unchanged (the history key is rewritten with the
unchanged history value, so it is also preserved). -/
theorem cluster_validation_preserves_category_and_frame :
    ∀ (state : ChatState) (query_outcome : Option ClusterData),
      dictGetOpt (cluster_validation_node state query_outcome).diagnosis.illness_category =
        dictGetOpt state.diagnosis.illness_category ∧
      (cluster_validation_node state query_outcome).user_input = state.user_input ∧
      (cluster_validation_node state query_outcome).session_id = state.session_id ∧
      (cluster_validation_node state query_outcome).user_id = state.user_id ∧
      (cluster_validation_node state query_outcome).history = state.history ∧
      (cluster_validation_node state query_outcome).symptoms = state.symptoms ∧
      (cluster_validation_node state query_outcome).days_since_onset =
        state.days_since_onset ∧
      (cluster_validation_node state query_outcome).clarifier_context =
        state.clarifier_context ∧
      (cluster_validation_node state query_outcome).clarification_attempts =
        state.clarification_attempts ∧
      (cluster_validation_node state query_outcome).exposure_location_name =
        state.exposure_location_name ∧
      (cluster_validation_node state query_outcome).exposure_latitude =
        state.exposure_latitude ∧
      (cluster_validation_node state query_outcome).exposure_longitude =
        state.exposure_longitude ∧
      (cluster_validation_node state query_outcome).days_since_exposure =
        state.days_since_exposure ∧
      (cluster_validation_node state query_outcome).exposure_awaiting_field =
        state.exposure_awaiting_field ∧
      (cluster_validation_node state query_outcome).exposure_partial_location =
        state.exposure_partial_location ∧
      (cluster_validation_node state query_outcome).exposure_partial_days =
        state.exposure_partial_days ∧
      (cluster_validation_node state query_outcome).location_city_state =
        state.location_city_state ∧
      (cluster_validation_node state query_outcome).location_venue =
        state.location_venue ∧
      (cluster_validation_node state query_outcome).location_json =
        state.location_json ∧
      (cluster_validation_node state query_outcome).report = state.report ∧
      (cluster_validation_node state query_outcome).care_advice = state.care_advice ∧
      (cluster_validation_node state query_outcome).is_complete = state.is_complete := by
  intro state query_outcome
  simp only [cluster_validation_node]
  split_ifs <;>
    exact ⟨rfl, rfl, rfl, rfl, rfl, rfl, rfl, rfl, rfl, rfl, rfl, rfl, rfl, rfl,
      rfl, rfl, rfl, rfl, rfl, rfl, rfl, rfl⟩
